import Mathlib

/-!
Verification of the order-fulfillment orchestration of the e-commerce
repository (src/workflows.py, src/activities.py, src/shared.py,
src/non_temporal_order_processing.py) against its specification.

The Python code is shallowly embedded: the ambient randomness inside each
activity is made an explicit parameter (a `Bool` saying whether the failure
roll fired, and the random transaction-id suffix), and the behaviour of an
activity across retry attempts is an explicit function from the attempt
number to the attempt's outcome. Exceptions become `Except ErrorKind`.
-/

/-- Error kinds of the repository: the three custom exception classes of
src/activities.py (`InventoryUnavailableError`, `PaymentDeclinedError`,
`EmailServiceError`), plus `other` for any unclassified / system exception
carried as the cause of a Temporal `ActivityError`. -/
inductive ErrorKind where
  | InventoryUnavailableError
  | PaymentDeclinedError
  | EmailServiceError
  | other (name : String)
deriving DecidableEq, Repr

deriving instance DecidableEq for Except

/-- Retry-policy configuration, as constructed in src/workflows.py via
`temporalio.common.RetryPolicy(initial_interval=..., maximum_interval=...,
maximum_attempts=..., non_retryable_error_types=[...])`. Intervals are in
seconds, embedded as rationals. `backoff_coefficient` is not set anywhere in
src/workflows.py; the engine default 2.0 applies, so it defaults to 2 here. -/
structure RetryPolicy where
  initial_interval : ℚ
  maximum_interval : ℚ
  maximum_attempts : Nat
  backoff_coefficient : ℚ := 2
  non_retryable_error_types : List ErrorKind := []
deriving DecidableEq, Repr

/-- Decision of the retry evaluator: stop retrying, or retry after a delay. -/
inductive RetryDecision where
  | stop
  | retryAfter (delay : ℚ)
deriving DecidableEq, Repr

/-- Backoff delay before re-attempting after attempt `attempt_number`:
min(initial_interval * backoff_coefficient ^ (attempt_number - 1),
maximum_interval). -/
def backoffDelay (policy : RetryPolicy) (attempt_number : Nat) : ℚ :=
  min (policy.initial_interval * policy.backoff_coefficient ^ (attempt_number - 1))
    policy.maximum_interval

/-- Modelled from the spec: the Retry Policy Evaluator
`decide(error_kind, attempt_number, policy)` of spec section 4.1. This is the
retry machinery of the Temporal engine (`temporalio`), an external
collaborator that is not part of src/; src/workflows.py only configures it
with per-step `RetryPolicy` values. -/
def retryDecision (kind : ErrorKind) (attempt_number : Nat)
    (policy : RetryPolicy) : RetryDecision :=
  if policy.maximum_attempts ≤ attempt_number ∨
      kind ∈ policy.non_retryable_error_types then
    RetryDecision.stop
  else
    RetryDecision.retryAfter (backoffDelay policy attempt_number)

/-- Retry policy of the validate-inventory step (src/workflows.py, step 1). -/
def validateInventoryPolicy : RetryPolicy :=
  { initial_interval := 1
    maximum_interval := 10
    maximum_attempts := 3
    non_retryable_error_types := [ErrorKind.InventoryUnavailableError] }

/-- Retry policy of the process-payment step (src/workflows.py, step 2). -/
def processPaymentPolicy : RetryPolicy :=
  { initial_interval := 1
    maximum_interval := 5
    maximum_attempts := 5
    non_retryable_error_types := [ErrorKind.PaymentDeclinedError] }

/-- Retry policy of the update-inventory step (src/workflows.py, step 3);
no `non_retryable_error_types` argument is passed. -/
def updateInventoryPolicy : RetryPolicy :=
  { initial_interval := 1
    maximum_interval := 10
    maximum_attempts := 3 }

/-- Retry policy of the send-confirmation step (src/workflows.py, step 4). -/
def sendConfirmationPolicy : RetryPolicy :=
  { initial_interval := 1
    maximum_interval := 5
    maximum_attempts := 2
    non_retryable_error_types := [ErrorKind.EmailServiceError] }

/-- Order data (src/shared.py): order_id, user_id, items as
(item_id, quantity) pairs, total_amount. -/
structure Order where
  order_id : String
  user_id : String
  items : List (String × Nat)
  total_amount : ℚ
deriving DecidableEq, Repr

/-- Modelled from the spec: the engine's per-step retry loop (spec section
4.2 algorithm: attempt the step; on success return; on failure consult the
evaluator; on Retry re-attempt with the counter incremented, on Stop fail
with the last error). `attempts n` is the outcome the activity would produce
on its n-th invocation (n starts at 1); `fuel` bounds the recursion and is
instantiated with `maximum_attempts`, which the evaluator's stop condition
never lets the loop exceed. Returns the final outcome together with the
number of invocations actually made. -/
def retryLoop (policy : RetryPolicy) (attempts : Nat → Except ErrorKind α) :
    Nat → Nat → Except ErrorKind α × Nat
  | 0, n =>
    match attempts n with
    | Except.ok a => (Except.ok a, 1)
    | Except.error e => (Except.error e, 1)
  | fuel + 1, n =>
    match attempts n with
    | Except.ok a => (Except.ok a, 1)
    | Except.error e =>
      match retryDecision e n policy with
      | RetryDecision.stop => (Except.error e, 1)
      | RetryDecision.retryAfter _ =>
        ((retryLoop policy attempts fuel (n + 1)).1,
          (retryLoop policy attempts fuel (n + 1)).2 + 1)

/-- Modelled from the spec: `workflow.execute_activity` with a retry policy —
runs the activity's attempts under the policy, starting at attempt 1. -/
def execute_activity (policy : RetryPolicy)
    (attempts : Nat → Except ErrorKind α) : Except ErrorKind α × Nat :=
  retryLoop policy attempts policy.maximum_attempts 1

/-- Activity validate_inventory (src/activities.py): raises
`InventoryUnavailableError` when the 0.1-probability failure roll fires,
otherwise returns True. `failRoll` stands for `random.random() < 0.1`. -/
def validate_inventory (_order : Order) (failRoll : Bool) :
    Except ErrorKind Bool :=
  if failRoll then Except.error ErrorKind.InventoryUnavailableError
  else Except.ok true

/-- Activity process_payment (src/activities.py): raises
`PaymentDeclinedError` when the 0.3-probability failure roll fires, otherwise
returns `txn_{order_id}_{random.randint(1000, 9999)}`. `failRoll` stands for
`random.random() < 0.3`; `suffix` encodes the draw of
`random.randint(1000, 9999)`, whose value is `1000 + suffix`. -/
def process_payment (order : Order) (failRoll : Bool) (suffix : Fin 9000) :
    Except ErrorKind String :=
  if failRoll then Except.error ErrorKind.PaymentDeclinedError
  else Except.ok ("txn_" ++ order.order_id ++ "_" ++ toString (1000 + suffix.val))

/-- Activity update_inventory (src/activities.py): no failure condition at
all, always returns True. -/
def update_inventory (_order : Order) : Except ErrorKind Bool :=
  Except.ok true

/-- Activity send_confirmation (src/activities.py): raises
`EmailServiceError` when the 0.05-probability failure roll fires, otherwise
returns True. `failRoll` stands for `random.random() < 0.05`. -/
def send_confirmation (_order : Order) (_txn_id : String) (failRoll : Bool) :
    Except ErrorKind Bool :=
  if failRoll then Except.error ErrorKind.EmailServiceError
  else Except.ok true

/-- Behaviour of the four activities across attempts within one run: for each
step, the outcome its n-th invocation would produce (n starts at 1). The
confirmation step's behaviour may depend on the transaction id it is called
with, mirroring `send_confirmation(order, txn_id)`. -/
structure ActivityEnv where
  validate : Nat → Except ErrorKind Bool
  payment : Nat → Except ErrorKind String
  update : Nat → Except ErrorKind Bool
  confirm : String → Nat → Except ErrorKind Bool

/-- Observable trace of one workflow run: how many times each activity was
invoked, and the transaction id passed to send_confirmation (if reached). -/
structure RunTrace where
  validate_attempts : Nat
  payment_attempts : Nat
  update_attempts : Nat
  confirm_attempts : Nat
  confirm_txn : Option String
deriving DecidableEq, Repr

/-- Step 1 of the workflow run: execute validate_inventory under its policy. -/
def step1 (env : ActivityEnv) : Except ErrorKind Bool × Nat :=
  execute_activity validateInventoryPolicy env.validate

/-- Step 2 of the workflow run: execute process_payment under its policy. -/
def step2 (env : ActivityEnv) : Except ErrorKind String × Nat :=
  execute_activity processPaymentPolicy env.payment

/-- Step 3 of the workflow run: execute update_inventory under its policy. -/
def step3 (env : ActivityEnv) : Except ErrorKind Bool × Nat :=
  execute_activity updateInventoryPolicy env.update

/-- Step 4 of the workflow run: execute send_confirmation under its policy,
with the transaction id obtained from step 2. -/
def step4 (env : ActivityEnv) (txn_id : String) : Except ErrorKind Bool × Nat :=
  execute_activity sendConfirmationPolicy (env.confirm txn_id)

/-- Literal result strings of src/workflows.py. -/
def inventoryFailString (order : Order) : String :=
  "Order " ++ order.order_id ++ " failed: Inventory unavailable."

/-- Literal payment-declined result string of src/workflows.py. -/
def paymentDeclinedString (order : Order) : String :=
  "Order " ++ order.order_id ++ " failed: Payment declined."

/-- Literal inventory-update-failure result string of src/workflows.py. -/
def updateFailString (order : Order) : String :=
  "Order " ++ order.order_id ++ " failed: Inventory update failed. Payment possibly refunded."

/-- Prefix of the literal success string of src/workflows.py; the full
success result is this prefix followed by the transaction id. -/
def successPrefix (order : Order) : String :=
  "Order " ++ order.order_id ++ " completed successfully. Transaction: "

/-- The Temporal workflow OrderProcessingWorkflow.run (src/workflows.py):
sequentially executes the four activities with their retry policies.
An `ActivityError` whose cause is the step's recognized business exception is
converted to the corresponding result string; in steps 1 and 2 any other
cause is re-raised (`Except.error`); in step 3 every `ActivityError` yields
the inventory-update-failure string; in step 4 every `ActivityError` is
swallowed and the run returns the success string with the transaction id. -/
def OrderProcessingWorkflow.run (order : Order) (env : ActivityEnv) :
    Except ErrorKind String × RunTrace :=
  match step1 env with
  | (Except.error e, n1) =>
    if e = ErrorKind.InventoryUnavailableError then
      (Except.ok (inventoryFailString order), ⟨n1, 0, 0, 0, none⟩)
    else
      (Except.error e, ⟨n1, 0, 0, 0, none⟩)
  | (Except.ok _, n1) =>
    match step2 env with
    | (Except.error e, n2) =>
      if e = ErrorKind.PaymentDeclinedError then
        (Except.ok (paymentDeclinedString order), ⟨n1, n2, 0, 0, none⟩)
      else
        (Except.error e, ⟨n1, n2, 0, 0, none⟩)
    | (Except.ok txn_id, n2) =>
      match step3 env with
      | (Except.error _, n3) =>
        (Except.ok (updateFailString order), ⟨n1, n2, n3, 0, none⟩)
      | (Except.ok _, n3) =>
        match step4 env txn_id with
        | (_, n4) =>
          (Except.ok (successPrefix order ++ txn_id),
            ⟨n1, n2, n3, n4, some txn_id⟩)

namespace NT

/-!
Embedding of src/non_temporal_order_processing.py. Its service functions
differ from src/activities.py only in failure probabilities (which are
explicit parameters here), except for their log lines; its orchestration
`process_order` is manual and differs substantially.
-/

/-- Service function process_payment of
src/non_temporal_order_processing.py: raises `PaymentDeclinedError` on a
0.15-probability roll, otherwise returns `txn_{order_id}_{randint(1000,9999)}`. -/
def process_payment (order : Order) (failRoll : Bool) (suffix : Fin 9000) :
    Except ErrorKind String :=
  if failRoll then Except.error ErrorKind.PaymentDeclinedError
  else Except.ok ("txn_" ++ order.order_id ++ "_" ++ toString (1000 + suffix.val))

/-- Behaviour of the four service functions within one run of
process_order: validate, update and confirm are invoked at most once
(process_order has no retry loop for them); payment may be attempted up to
three times, indexed 0, 1, 2 like `for attempt in range(3)`. -/
structure ServiceEnv where
  validate : Except ErrorKind Bool
  payment : Nat → Except ErrorKind String
  update : Except ErrorKind Bool
  confirm : Except ErrorKind Bool

/-- Payment retry loop of process_order
(src/non_temporal_order_processing.py, PHASE 2): `for attempt in range(3)`,
break on success; `PaymentDeclinedError` is re-raised on the final attempt
(`attempt == 2`) and otherwise retried after a linear backoff; any other
exception propagates immediately (only `PaymentDeclinedError` is caught). -/
def paymentPhase (f : Nat → Except ErrorKind String) :
    Nat → Nat → Except ErrorKind String
  | fuel, attempt =>
    match f attempt with
    | Except.ok t => Except.ok t
    | Except.error e =>
      if e = ErrorKind.PaymentDeclinedError then
        if attempt == 2 then Except.error e
        else
          match fuel with
          | 0 => Except.error e
          | fuel' + 1 => paymentPhase f fuel' (attempt + 1)
      else Except.error e

/-- The manual orchestration process_order of
src/non_temporal_order_processing.py. PHASE 1: validate once, any exception
propagates (an `InventoryUnavailableError` is caught, logged and re-raised).
PHASE 2: the payment loop above, three attempts. PHASE 3: update once, any
exception is logged and re-raised. PHASE 4: confirm once, an
`EmailServiceError` is swallowed; anything else propagates. On completion it
returns its own success string, `Order {order_id} completed. Txn: {txn_id}`. -/
def process_order (order : Order) (env : ServiceEnv) :
    Except ErrorKind String :=
  match env.validate with
  | Except.error e => Except.error e
  | Except.ok _ =>
    match paymentPhase env.payment 3 0 with
    | Except.error e => Except.error e
    | Except.ok txn_id =>
      match env.update with
      | Except.error e => Except.error e
      | Except.ok _ =>
        match env.confirm with
        | Except.error e =>
          if e = ErrorKind.EmailServiceError then
            Except.ok ("Order " ++ order.order_id ++ " completed. Txn: " ++ txn_id)
          else Except.error e
        | Except.ok _ =>
          Except.ok ("Order " ++ order.order_id ++ " completed. Txn: " ++ txn_id)

end NT

/-- The evaluator stops exactly when the attempt counter has reached
`maximum_attempts` or the error kind is non-retryable. -/
theorem retryDecision_eq_stop_iff (kind : ErrorKind) (n : Nat)
    (policy : RetryPolicy) :
    retryDecision kind n policy = RetryDecision.stop ↔
      (policy.maximum_attempts ≤ n ∨
        kind ∈ policy.non_retryable_error_types) := by
  unfold retryDecision
  split <;> simp_all

/-- If the evaluator does not stop, it retries after the backoff delay. -/
theorem retryDecision_eq_retry (kind : ErrorKind) (n : Nat)
    (policy : RetryPolicy)
    (h : ¬(policy.maximum_attempts ≤ n ∨
        kind ∈ policy.non_retryable_error_types)) :
    retryDecision kind n policy =
      RetryDecision.retryAfter (backoffDelay policy n) := by
  unfold retryDecision
  simp [h]

/-- Attempt-count bound for the retry loop: starting at attempt `n` with
enough fuel, at most `maximum_attempts + 1 - n` invocations are made. -/
theorem retryLoop_count_le (policy : RetryPolicy)
    (f : Nat → Except ErrorKind α) :
    ∀ fuel n, 1 ≤ n → n ≤ policy.maximum_attempts →
      policy.maximum_attempts ≤ n + fuel →
      (retryLoop policy f fuel n).2 ≤ policy.maximum_attempts + 1 - n := by
  intro fuel
  induction fuel with
  | zero =>
    intro n h1 h2 _
    simp only [retryLoop]
    cases hf : f n with
    | ok a => simp only [hf]; omega
    | error e => simp only [hf]; omega
  | succ fuel ih =>
    intro n h1 h2 h3
    simp only [retryLoop]
    cases hf : f n with
    | ok a => simp only [hf]; omega
    | error e =>
      cases hd : retryDecision e n policy with
      | stop => simp only [hf, hd]; omega
      | retryAfter d =>
        have hlt : n < policy.maximum_attempts := by
          by_contra hge
          have hstop : retryDecision e n policy = RetryDecision.stop := by
            rw [retryDecision_eq_stop_iff]
            left
            omega
          rw [hd] at hstop
          exact absurd hstop (by simp)
        have hrec := ih (n + 1) (by omega) (by omega) (by omega)
        simp only [hf, hd]
        omega

/-- Each executed activity makes at least one invocation and at most
`maximum_attempts` of them (for a positive maximum). -/
theorem execute_activity_count_le (policy : RetryPolicy)
    (f : Nat → Except ErrorKind α) (h : 1 ≤ policy.maximum_attempts) :
    (execute_activity policy f).2 ≤ policy.maximum_attempts := by
  have := retryLoop_count_le policy f policy.maximum_attempts 1
    (by omega) h (by omega)
  unfold execute_activity
  omega

/-- Backoff delays grow with the attempt number when the coefficient is at
least one and the initial interval non-negative. -/
theorem backoffDelay_mono (policy : RetryPolicy)
    (h0 : 0 ≤ policy.initial_interval)
    (h1 : 1 ≤ policy.backoff_coefficient) (n : Nat) :
    backoffDelay policy n ≤ backoffDelay policy (n + 1) := by
  unfold backoffDelay
  refine min_le_min ?_ le_rfl
  refine mul_le_mul_of_nonneg_left ?_ h0
  exact pow_le_pow_right₀ h1 (by omega)

/-- Backoff delays never exceed the maximum interval. -/
theorem backoffDelay_le_max (policy : RetryPolicy) (n : Nat) :
    backoffDelay policy n ≤ policy.maximum_interval :=
  min_le_right _ _

/-- A concrete order used to instantiate theorems with hypotheses. -/
def order1 : Order :=
  ⟨"order_1", "user_123", [("prod_xyz", 2)], 99⟩

/-- Transaction-id format: `txn_` followed by the order id, `_`, and a
four-digit number (a number between 1000 and 9999). -/
def isTxnIdFor (oid s : String) : Prop :=
  ∃ n : Nat, 1000 ≤ n ∧ n ≤ 9999 ∧ s = "txn_" ++ oid ++ "_" ++ toString n

/-- C4: the retry decision is Stop exactly when the attempt number has
reached the policy's maximum_attempts or the kind is non-retryable, and
otherwise Retry with delay min(initial_interval * backoff_coefficient ^
(attempt_number - 1), maximum_interval); and the four per-step policies of
src/workflows.py carry max_attempts 3/5/3/2, initial interval 1s, maximum
interval 10s/5s/10s/5s, coefficient 2.0, and non-retryable kinds
InventoryUnavailable / PaymentDeclined / none / EmailServiceUnavailable. -/
theorem retry_decision_spec :
    (∀ (kind : ErrorKind) (n : Nat) (policy : RetryPolicy),
      (retryDecision kind n policy = RetryDecision.stop ↔
        (policy.maximum_attempts ≤ n ∨
          kind ∈ policy.non_retryable_error_types)) ∧
      (retryDecision kind n policy ≠ RetryDecision.stop →
        retryDecision kind n policy = RetryDecision.retryAfter
          (min (policy.initial_interval *
            policy.backoff_coefficient ^ (n - 1)) policy.maximum_interval))) ∧
    validateInventoryPolicy =
      ⟨1, 10, 3, 2, [ErrorKind.InventoryUnavailableError]⟩ ∧
    processPaymentPolicy = ⟨1, 5, 5, 2, [ErrorKind.PaymentDeclinedError]⟩ ∧
    updateInventoryPolicy = ⟨1, 10, 3, 2, []⟩ ∧
    sendConfirmationPolicy = ⟨1, 5, 2, 2, [ErrorKind.EmailServiceError]⟩ := by
  refine ⟨?_, rfl, rfl, rfl, rfl⟩
  intro kind n policy
  refine ⟨retryDecision_eq_stop_iff kind n policy, ?_⟩
  intro h
  have hc : ¬(policy.maximum_attempts ≤ n ∨
      kind ∈ policy.non_retryable_error_types) := by
    intro hc
    exact h ((retryDecision_eq_stop_iff kind n policy).2 hc)
  exact retryDecision_eq_retry kind n policy hc

/-- Witness for C4: a still-retryable unclassified payment error at attempt 1
yields Retry with the computed backoff delay. -/
theorem retry_decision_spec_witness :
    retryDecision (ErrorKind.other "Boom") 1 processPaymentPolicy =
      RetryDecision.retryAfter
        (min (processPaymentPolicy.initial_interval *
          processPaymentPolicy.backoff_coefficient ^ (1 - 1))
          processPaymentPolicy.maximum_interval) :=
  (retry_decision_spec.1 (ErrorKind.other "Boom") 1 processPaymentPolicy).2
    (by decide)

/-- C7: for each of the four per-step policies, the computed backoff delays
are non-decreasing in the attempt number and never exceed that policy's
maximum_interval. -/
theorem backoff_monotone_bounded :
    (∀ n, backoffDelay validateInventoryPolicy n ≤
        backoffDelay validateInventoryPolicy (n + 1) ∧
      backoffDelay validateInventoryPolicy n ≤
        validateInventoryPolicy.maximum_interval) ∧
    (∀ n, backoffDelay processPaymentPolicy n ≤
        backoffDelay processPaymentPolicy (n + 1) ∧
      backoffDelay processPaymentPolicy n ≤
        processPaymentPolicy.maximum_interval) ∧
    (∀ n, backoffDelay updateInventoryPolicy n ≤
        backoffDelay updateInventoryPolicy (n + 1) ∧
      backoffDelay updateInventoryPolicy n ≤
        updateInventoryPolicy.maximum_interval) ∧
    (∀ n, backoffDelay sendConfirmationPolicy n ≤
        backoffDelay sendConfirmationPolicy (n + 1) ∧
      backoffDelay sendConfirmationPolicy n ≤
        sendConfirmationPolicy.maximum_interval) := by
  refine ⟨fun n => ⟨?_, backoffDelay_le_max _ n⟩,
    fun n => ⟨?_, backoffDelay_le_max _ n⟩,
    fun n => ⟨?_, backoffDelay_le_max _ n⟩,
    fun n => ⟨?_, backoffDelay_le_max _ n⟩⟩ <;>
  exact backoffDelay_mono _ (by norm_num [validateInventoryPolicy,
    processPaymentPolicy, updateInventoryPolicy, sendConfirmationPolicy])
    (by norm_num [validateInventoryPolicy, processPaymentPolicy,
      updateInventoryPolicy, sendConfirmationPolicy]) n

/-- C8: a successful payment attempt — in the Temporal activity and in the
non-Temporal service function alike — returns a transaction id of the form
`txn_<order_id>_<4-digit-number>`, where `<order_id>` is the input order's
id. -/
theorem txn_id_format (order : Order) (failRoll : Bool) (suffix : Fin 9000)
    (s : String) :
    (process_payment order failRoll suffix = Except.ok s →
      isTxnIdFor order.order_id s) ∧
    (NT.process_payment order failRoll suffix = Except.ok s →
      isTxnIdFor order.order_id s) := by
  constructor <;>
  · intro h
    cases failRoll with
    | false =>
      injection h with h2
      have hlt := suffix.isLt
      exact ⟨1000 + suffix.val, by omega, by omega, h2.symm⟩
    | true => exact Except.noConfusion h

/-- Witness for C8: the payment activity with suffix draw 234 on order_1
produces txn_order_1_1234, which has the required format. -/
theorem txn_id_format_witness : isTxnIdFor order1.order_id "txn_order_1_1234" :=
  (txn_id_format order1 false ⟨234, by omega⟩ "txn_order_1_1234").1 (by decide)

/-- C10: validate_inventory, update_inventory and send_confirmation never
return False — any normal return is True (failure is signalled only by a
raised error), and update_inventory has no failure branch at all. -/
theorem activities_never_false :
    (∀ (order : Order) (roll : Bool) (b : Bool),
      validate_inventory order roll = Except.ok b → b = true) ∧
    (∀ order : Order, update_inventory order = Except.ok true) ∧
    (∀ (order : Order) (txn : String) (roll : Bool) (b : Bool),
      send_confirmation order txn roll = Except.ok b → b = true) := by
  refine ⟨?_, fun _ => rfl, ?_⟩
  · intro order roll b h
    cases roll with
    | false => injection h with h2; exact h2.symm
    | true => exact Except.noConfusion h
  · intro order txn roll b h
    cases roll with
    | false => injection h with h2; exact h2.symm
    | true => exact Except.noConfusion h

/-- Witness for C10: concrete successful invocations return True. -/
theorem activities_never_false_witness :
    validate_inventory order1 false = Except.ok true ∧
    update_inventory order1 = Except.ok true := by
  exact ⟨by decide, activities_never_false.2.1 order1⟩

/-- C6: in every run, each activity is invoked at most its configured
maximum_attempts many times — 3 for validate_inventory, 5 for
process_payment, 3 for update_inventory and 2 for send_confirmation. -/
theorem retry_attempt_bounds (order : Order) (env : ActivityEnv) :
    (OrderProcessingWorkflow.run order env).2.validate_attempts ≤ 3 ∧
    (OrderProcessingWorkflow.run order env).2.payment_attempts ≤ 5 ∧
    (OrderProcessingWorkflow.run order env).2.update_attempts ≤ 3 ∧
    (OrderProcessingWorkflow.run order env).2.confirm_attempts ≤ 2 := by
  have hv : (step1 env).2 ≤ 3 :=
    execute_activity_count_le validateInventoryPolicy env.validate (by decide)
  have hp : (step2 env).2 ≤ 5 :=
    execute_activity_count_le processPaymentPolicy env.payment (by decide)
  have hu : (step3 env).2 ≤ 3 :=
    execute_activity_count_le updateInventoryPolicy env.update (by decide)
  unfold OrderProcessingWorkflow.run
  rcases h1 : step1 env with ⟨r1, n1⟩
  rw [h1] at hv
  rcases r1 with e1 | b1
  · by_cases he : e1 = ErrorKind.InventoryUnavailableError <;> simp_all
  · rcases h2 : step2 env with ⟨r2, n2⟩
    rw [h2] at hp
    rcases r2 with e2 | txn
    · by_cases he : e2 = ErrorKind.PaymentDeclinedError <;> simp_all
    · rcases h3 : step3 env with ⟨r3, n3⟩
      rw [h3] at hu
      rcases r3 with e3 | b3
      · simp_all
      · have hc : (step4 env txn).2 ≤ 2 :=
          execute_activity_count_le sendConfirmationPolicy
            (env.confirm txn) (by decide)
        rcases h4 : step4 env txn with ⟨r4, n4⟩
        rw [h4] at hc
        simp_all

/-- If attempt `n` fails and the evaluator stops there, the loop makes
exactly that one invocation and reports the error. -/
theorem retryLoop_stop (policy : RetryPolicy) (f : Nat → Except ErrorKind α)
    (fuel n : Nat) (e : ErrorKind) (hf : f n = Except.error e)
    (hd : retryDecision e n policy = RetryDecision.stop) :
    retryLoop policy f fuel n = (Except.error e, 1) := by
  cases fuel <;> simp only [retryLoop, hf, hd]

/-- Environment in which every activity succeeds; payment yields
txn_order_1_1234. -/
def envAllOk : ActivityEnv :=
  ⟨fun _ => Except.ok true, fun _ => Except.ok "txn_order_1_1234",
    fun _ => Except.ok true, fun _ _ => Except.ok true⟩

/-- Environment in which inventory validation always fails with
InventoryUnavailableError. -/
def envInvUnavailable : ActivityEnv :=
  ⟨fun _ => Except.error ErrorKind.InventoryUnavailableError,
    fun _ => Except.ok "txn_order_1_1234", fun _ => Except.ok true,
    fun _ _ => Except.ok true⟩

/-- Environment in which payment is always declined. -/
def envPayDeclined : ActivityEnv :=
  ⟨fun _ => Except.ok true,
    fun _ => Except.error ErrorKind.PaymentDeclinedError,
    fun _ => Except.ok true, fun _ _ => Except.ok true⟩

/-- Environment in which the post-payment inventory update always fails with
an unclassified system error. -/
def envUpdateCrash : ActivityEnv :=
  ⟨fun _ => Except.ok true, fun _ => Except.ok "txn_order_1_1234",
    fun _ => Except.error (ErrorKind.other "DatabaseDown"),
    fun _ _ => Except.ok true⟩

/-- Environment in which inventory validation always fails with an
unclassified system error. -/
def envValidateBoom : ActivityEnv :=
  ⟨fun _ => Except.error (ErrorKind.other "Boom"),
    fun _ => Except.ok "txn_order_1_1234", fun _ => Except.ok true,
    fun _ _ => Except.ok true⟩

/-- Environment in which only the confirmation email always fails. -/
def envEmailDown : ActivityEnv :=
  ⟨fun _ => Except.ok true, fun _ => Except.ok "txn_order_1_1234",
    fun _ => Except.ok true,
    fun _ _ => Except.error ErrorKind.EmailServiceError⟩

/-- C1: if validate-inventory terminally fails with InventoryUnavailable,
the run returns the inventory-failure string and payment, inventory update
and confirmation are never invoked; and in every run a step is invoked only
if every earlier step's execution succeeded, so no step runs after a prior
step has failed the run. -/
theorem inventory_short_circuit (order : Order) (env : ActivityEnv) :
    ((step1 env).1 = Except.error ErrorKind.InventoryUnavailableError →
      (OrderProcessingWorkflow.run order env).1 =
        Except.ok (inventoryFailString order) ∧
      (OrderProcessingWorkflow.run order env).2.payment_attempts = 0 ∧
      (OrderProcessingWorkflow.run order env).2.update_attempts = 0 ∧
      (OrderProcessingWorkflow.run order env).2.confirm_attempts = 0) ∧
    ((OrderProcessingWorkflow.run order env).2.payment_attempts ≠ 0 →
      ∃ b, (step1 env).1 = Except.ok b) ∧
    ((OrderProcessingWorkflow.run order env).2.update_attempts ≠ 0 →
      (∃ b, (step1 env).1 = Except.ok b) ∧
        ∃ t, (step2 env).1 = Except.ok t) ∧
    ((OrderProcessingWorkflow.run order env).2.confirm_attempts ≠ 0 →
      (∃ b, (step1 env).1 = Except.ok b) ∧
      (∃ t, (step2 env).1 = Except.ok t) ∧
        ∃ b, (step3 env).1 = Except.ok b) := by
  unfold OrderProcessingWorkflow.run
  rcases h1 : step1 env with ⟨r1, n1⟩
  rcases r1 with e1 | b1
  · by_cases he : e1 = ErrorKind.InventoryUnavailableError <;> simp_all
  · rcases h2 : step2 env with ⟨r2, n2⟩
    rcases r2 with e2 | txn
    · by_cases he : e2 = ErrorKind.PaymentDeclinedError <;> simp_all
    · rcases h3 : step3 env with ⟨r3, n3⟩
      rcases r3 with e3 | b3
      · simp_all
      · rcases h4 : step4 env txn with ⟨r4, n4⟩
        simp_all

/-- Witness for C1: with inventory permanently unavailable the run returns
the inventory-failure string and no later step is ever invoked. -/
theorem inventory_short_circuit_witness :
    (OrderProcessingWorkflow.run order1 envInvUnavailable).1 =
      Except.ok (inventoryFailString order1) ∧
    (OrderProcessingWorkflow.run order1 envInvUnavailable).2.payment_attempts = 0 ∧
    (OrderProcessingWorkflow.run order1 envInvUnavailable).2.update_attempts = 0 ∧
    (OrderProcessingWorkflow.run order1 envInvUnavailable).2.confirm_attempts = 0 :=
  (inventory_short_circuit order1 envInvUnavailable).1 (by decide)

/-- C2: when validation, payment and inventory update succeed but the
confirmation step terminally fails, the run does not raise — it returns the
success string whose transaction id is exactly the payment step's value,
that same value having been passed verbatim to send_confirmation, and the
result is the success template containing the transaction id once. -/
theorem email_failure_degrades (order : Order) (env : ActivityEnv)
    (txn : String) (e : ErrorKind) (b1 b3 : Bool)
    (h1 : (step1 env).1 = Except.ok b1)
    (h2 : (step2 env).1 = Except.ok txn)
    (h3 : (step3 env).1 = Except.ok b3)
    (_h4 : (step4 env txn).1 = Except.error e) :
    (OrderProcessingWorkflow.run order env).1 =
      Except.ok (successPrefix order ++ txn) ∧
    (OrderProcessingWorkflow.run order env).2.confirm_txn = some txn := by
  unfold OrderProcessingWorkflow.run
  rcases hh1 : step1 env with ⟨r1, n1⟩
  rw [hh1] at h1
  rcases r1 with e1 | c1
  · exact absurd h1 (by simp)
  · rcases hh2 : step2 env with ⟨r2, n2⟩
    rw [hh2] at h2
    rcases r2 with e2 | t2
    · exact absurd h2 (by simp)
    · have ht : t2 = txn := by simpa using h2
      subst ht
      rcases hh3 : step3 env with ⟨r3, n3⟩
      rw [hh3] at h3
      rcases r3 with e3 | c3
      · exact absurd h3 (by simp)
      · rcases hh4 : step4 env t2 with ⟨r4, n4⟩
        simp_all

/-- Witness for C2: with only the email service down, the run still returns
the success string carrying txn_order_1_1234, which was passed to the
confirmation step. -/
theorem email_failure_degrades_witness :
    (OrderProcessingWorkflow.run order1 envEmailDown).1 =
      Except.ok (successPrefix order1 ++ "txn_order_1_1234") ∧
    (OrderProcessingWorkflow.run order1 envEmailDown).2.confirm_txn =
      some "txn_order_1_1234" :=
  email_failure_degrades order1 envEmailDown "txn_order_1_1234"
    ErrorKind.EmailServiceError true true (by decide) (by decide) (by decide)
    (by decide)

/-- C9: a PaymentDeclined failure is never retried — the evaluator stops on
PaymentDeclinedError at every attempt number under the payment policy, and
if the first invocation of process_payment raises PaymentDeclinedError in a
run that reached the payment step, that step is invoked exactly once and the
run immediately returns the payment-declined string. -/
theorem payment_declined_not_retried :
    (∀ n, retryDecision ErrorKind.PaymentDeclinedError n processPaymentPolicy
      = RetryDecision.stop) ∧
    ∀ (order : Order) (env : ActivityEnv) (b : Bool),
      (step1 env).1 = Except.ok b →
      env.payment 1 = Except.error ErrorKind.PaymentDeclinedError →
      (OrderProcessingWorkflow.run order env).2.payment_attempts = 1 ∧
      (OrderProcessingWorkflow.run order env).1 =
        Except.ok (paymentDeclinedString order) := by
  constructor
  · intro n
    rw [retryDecision_eq_stop_iff]
    right
    simp [processPaymentPolicy]
  · intro order env b h1 hpay
    have hstep2 : step2 env = (Except.error ErrorKind.PaymentDeclinedError, 1) := by
      unfold step2 execute_activity
      exact retryLoop_stop processPaymentPolicy env.payment
        processPaymentPolicy.maximum_attempts 1
        ErrorKind.PaymentDeclinedError hpay (by decide)
    unfold OrderProcessingWorkflow.run
    rcases hh1 : step1 env with ⟨r1, n1⟩
    rw [hh1] at h1
    rcases r1 with e1 | c1
    · exact absurd h1 (by simp)
    · rw [hstep2]
      simp

/-- Witness for C9: with the payment gateway declining, the payment step
runs once and the run returns the declined string. -/
theorem payment_declined_not_retried_witness :
    (OrderProcessingWorkflow.run order1 envPayDeclined).2.payment_attempts = 1 ∧
    (OrderProcessingWorkflow.run order1 envPayDeclined).1 =
      Except.ok (paymentDeclinedString order1) :=
  payment_declined_not_retried.2 order1 envPayDeclined true (by decide)
    (by decide)

/-- Counterexample to C3: the update-inventory step terminally fails with an
unclassified system error kind (`DatabaseDown`, recognized by no step
classification), yet the run does not propagate a raised error — it returns
the business-reason result string for inventory-update failure. -/
theorem unrecognized_error_converted_counterexample :
    (step3 envUpdateCrash).1 = Except.error (ErrorKind.other "DatabaseDown") ∧
    (OrderProcessingWorkflow.run order1 envUpdateCrash).1 =
      Except.ok (updateFailString order1) := by
  constructor
  · decide
  · decide

/-- C3 as amended: unrecognized terminal failures are re-raised by the
validate-inventory and capture-payment steps only (in particular a
capture-payment terminal failure that is not PaymentDeclined is re-raised,
distinct from the declined case); the update-inventory step converts every
terminal failure — recognized or not — to the inventory-update business
string, and the send-confirmation step swallows every terminal failure. -/
theorem unrecognized_error_propagation (order : Order) (env : ActivityEnv)
    (e : ErrorKind) :
    ((step1 env).1 = Except.error e →
      e ≠ ErrorKind.InventoryUnavailableError →
      (OrderProcessingWorkflow.run order env).1 = Except.error e) ∧
    (∀ b, (step1 env).1 = Except.ok b →
      (step2 env).1 = Except.error e →
      e ≠ ErrorKind.PaymentDeclinedError →
      (OrderProcessingWorkflow.run order env).1 = Except.error e) ∧
    (∀ b t, (step1 env).1 = Except.ok b →
      (step2 env).1 = Except.ok t →
      (step3 env).1 = Except.error e →
      (OrderProcessingWorkflow.run order env).1 =
        Except.ok (updateFailString order)) ∧
    (∀ b t c, (step1 env).1 = Except.ok b →
      (step2 env).1 = Except.ok t →
      (step3 env).1 = Except.ok c →
      (step4 env t).1 = Except.error e →
      (OrderProcessingWorkflow.run order env).1 =
        Except.ok (successPrefix order ++ t)) := by
  unfold OrderProcessingWorkflow.run
  rcases h1 : step1 env with ⟨r1, n1⟩
  rcases r1 with e1 | b1
  · by_cases he : e1 = ErrorKind.InventoryUnavailableError <;> simp_all
  · rcases h2 : step2 env with ⟨r2, n2⟩
    rcases r2 with e2 | txn
    · by_cases he : e2 = ErrorKind.PaymentDeclinedError <;> simp_all
    · rcases h3 : step3 env with ⟨r3, n3⟩
      rcases r3 with e3 | b3
      · simp_all
      · rcases h4 : step4 env txn with ⟨r4, n4⟩
        simp_all

/-- Witness for the amended C3: an unclassified validation error is
re-raised to the caller. -/
theorem unrecognized_error_propagation_witness :
    (OrderProcessingWorkflow.run order1 envValidateBoom).1 =
      Except.error (ErrorKind.other "Boom") :=
  (unrecognized_error_propagation order1 envValidateBoom
    (ErrorKind.other "Boom")).1 (by decide) (by decide)

/-- Non-Temporal service environment in which every service call succeeds;
payment yields txn_order_1_1234. -/
def ntEnvAllOk : NT.ServiceEnv :=
  ⟨Except.ok true, fun _ => Except.ok "txn_order_1_1234", Except.ok true,
    Except.ok true⟩

/-- Counterexample to C5: a fully successful run of the non-Temporal
process_order returns "Order order_1 completed. Txn: txn_order_1_1234",
which is not the section-6 success string
"Order order_1 completed successfully. Transaction: txn_order_1_1234". -/
theorem result_strings_counterexample :
    NT.process_order order1 ntEnvAllOk =
      Except.ok "Order order_1 completed. Txn: txn_order_1_1234" ∧
    "Order order_1 completed. Txn: txn_order_1_1234" ≠
      successPrefix order1 ++ "txn_order_1_1234" := by
  constructor
  · decide
  · decide

/-- C5 as amended: every Temporal workflow run ending in a business outcome
returns exactly the section-6 literal string for that outcome (inventory
failure, payment declined, inventory-update failure, or the success template
with the transaction id); the non-Temporal process_order does not — its only
business-outcome return is the success case, where it returns the different
literal "Order {order_id} completed. Txn: {txn_id}" (its failure outcomes
are raised errors, not result strings). -/
theorem result_strings (order : Order) (env : ActivityEnv)
    (nenv : NT.ServiceEnv) :
    ((step1 env).1 = Except.error ErrorKind.InventoryUnavailableError →
      (OrderProcessingWorkflow.run order env).1 =
        Except.ok (inventoryFailString order)) ∧
    (∀ b, (step1 env).1 = Except.ok b →
      (step2 env).1 = Except.error ErrorKind.PaymentDeclinedError →
      (OrderProcessingWorkflow.run order env).1 =
        Except.ok (paymentDeclinedString order)) ∧
    (∀ b t e, (step1 env).1 = Except.ok b →
      (step2 env).1 = Except.ok t →
      (step3 env).1 = Except.error e →
      (OrderProcessingWorkflow.run order env).1 =
        Except.ok (updateFailString order)) ∧
    (∀ b t c, (step1 env).1 = Except.ok b →
      (step2 env).1 = Except.ok t →
      (step3 env).1 = Except.ok c →
      (OrderProcessingWorkflow.run order env).1 =
        Except.ok (successPrefix order ++ t)) ∧
    (∀ s, NT.process_order order nenv = Except.ok s →
      ∃ txn, NT.paymentPhase nenv.payment 3 0 = Except.ok txn ∧
        s = "Order " ++ order.order_id ++ " completed. Txn: " ++ txn) := by
  have hnt : ∀ s, NT.process_order order nenv = Except.ok s →
      ∃ txn, NT.paymentPhase nenv.payment 3 0 = Except.ok txn ∧
        s = "Order " ++ order.order_id ++ " completed. Txn: " ++ txn := by
    intro s hs
    unfold NT.process_order at hs
    rcases hv : nenv.validate with ev | bv <;> rw [hv] at hs
    · exact absurd hs (by simp)
    · rcases hpp : NT.paymentPhase nenv.payment 3 0 with ep | txn <;>
        rw [hpp] at hs
      · exact absurd hs (by simp)
      · rcases hu : nenv.update with eu | bu <;> rw [hu] at hs
        · exact absurd hs (by simp)
        · rcases hc : nenv.confirm with ec | bc <;> rw [hc] at hs <;>
            dsimp only at hs
          · by_cases he : ec = ErrorKind.EmailServiceError
            · rw [if_pos he] at hs
              injection hs with hs2
              exact ⟨txn, rfl, hs2.symm⟩
            · rw [if_neg he] at hs
              exact absurd hs (by simp)
          · injection hs with hs2
            exact ⟨txn, rfl, hs2.symm⟩
  refine ⟨?_, ?_, ?_, ?_, hnt⟩
  all_goals
    unfold OrderProcessingWorkflow.run
    rcases h1 : step1 env with ⟨r1, n1⟩
    rcases r1 with e1 | b1
    · by_cases he : e1 = ErrorKind.InventoryUnavailableError <;> simp_all
    · rcases h2 : step2 env with ⟨r2, n2⟩
      rcases r2 with e2 | txn
      · by_cases he : e2 = ErrorKind.PaymentDeclinedError <;> simp_all
      · rcases h3 : step3 env with ⟨r3, n3⟩
        rcases r3 with e3 | b3
        · simp_all
        · rcases h4 : step4 env txn with ⟨r4, n4⟩
          simp_all

/-- Witness for the amended C5: a fully successful Temporal run returns the
exact section-6 success string, and the successful non-Temporal run returns
its own distinct literal. -/
theorem result_strings_witness :
    (OrderProcessingWorkflow.run order1 envAllOk).1 =
      Except.ok (successPrefix order1 ++ "txn_order_1_1234") ∧
    ∃ txn, NT.paymentPhase ntEnvAllOk.payment 3 0 = Except.ok txn ∧
      "Order order_1 completed. Txn: txn_order_1_1234" =
        "Order " ++ order1.order_id ++ " completed. Txn: " ++ txn :=
  ⟨(result_strings order1 envAllOk ntEnvAllOk).2.2.2.1 true
      "txn_order_1_1234" true (by decide) (by decide) (by decide),
    (result_strings order1 envAllOk ntEnvAllOk).2.2.2.2
      "Order order_1 completed. Txn: txn_order_1_1234" (by decide)⟩
